import Mathlib

/-!
# Certificate serial numbers: a shallow embedding

This file embeds the serial-number core of a certificate-management system
(`backend/utils/certificate_generator.py` together with the data model of
`backend/models/certificate_models.py`) and proves properties of it.

Modelling conventions:

* Machine integers of the source are `Nat` (all ids, years and sequence
  numbers handled by the code are non-negative).
* The persistence store (a SQLAlchemy session) is a record of lists; the
  point queries and the max-aggregate query the code issues are embedded as
  `List.find?` / `List.filter` / a list maximum.
* The wall clock (`datetime.now().year`) is passed as an explicit
  `current_year` argument.
* Python's `re.match(r'^\d{4}-[A-Z]{2}-\d{4}-[A-F0-9]{6}$', s)` is embedded
  with its exact semantics: `\d` matches any Unicode decimal digit
  (category Nd), and `$` also matches just before one trailing newline.
* `hashlib.sha256` is embedded as a full executable SHA-256 (FIPS 180-4)
  over the UTF-8 encoding of the input string.
* Python's `str.upper()` is embedded as a character-wise upper-casing of the
  ASCII letters, which agrees with Python on every string the system itself
  produces or stores in a two-character ASCII course-code column.
* A fallible function (`raise ValueError`) becomes `Except String`.
-/

namespace CSL

/-! ## Character classes of the validation regex -/

/-- Unicode decimal digits (category Nd): the character class Python's
`\d` matches when no `re.ASCII` flag is given.  The ranges are the Nd
ranges of the Unicode database. -/
def isNdDigit (c : Char) : Bool :=
  let n := c.toNat
  (0x30 <= n && n <= 0x39) ||
  (0x660 <= n && n <= 0x669) ||
  (0x6f0 <= n && n <= 0x6f9) ||
  (0x7c0 <= n && n <= 0x7c9) ||
  (0x966 <= n && n <= 0x96f) ||
  (0x9e6 <= n && n <= 0x9ef) ||
  (0xa66 <= n && n <= 0xa6f) ||
  (0xae6 <= n && n <= 0xaef) ||
  (0xb66 <= n && n <= 0xb6f) ||
  (0xbe6 <= n && n <= 0xbef) ||
  (0xc66 <= n && n <= 0xc6f) ||
  (0xce6 <= n && n <= 0xcef) ||
  (0xd66 <= n && n <= 0xd6f) ||
  (0xde6 <= n && n <= 0xdef) ||
  (0xe50 <= n && n <= 0xe59) ||
  (0xed0 <= n && n <= 0xed9) ||
  (0xf20 <= n && n <= 0xf29) ||
  (0x1040 <= n && n <= 0x1049) ||
  (0x1090 <= n && n <= 0x1099) ||
  (0x17e0 <= n && n <= 0x17e9) ||
  (0x1810 <= n && n <= 0x1819) ||
  (0x1946 <= n && n <= 0x194f) ||
  (0x19d0 <= n && n <= 0x19d9) ||
  (0x1a80 <= n && n <= 0x1a89) ||
  (0x1a90 <= n && n <= 0x1a99) ||
  (0x1b50 <= n && n <= 0x1b59) ||
  (0x1bb0 <= n && n <= 0x1bb9) ||
  (0x1c40 <= n && n <= 0x1c49) ||
  (0x1c50 <= n && n <= 0x1c59) ||
  (0xa620 <= n && n <= 0xa629) ||
  (0xa8d0 <= n && n <= 0xa8d9) ||
  (0xa900 <= n && n <= 0xa909) ||
  (0xa9d0 <= n && n <= 0xa9d9) ||
  (0xa9f0 <= n && n <= 0xa9f9) ||
  (0xaa50 <= n && n <= 0xaa59) ||
  (0xabf0 <= n && n <= 0xabf9) ||
  (0xff10 <= n && n <= 0xff19) ||
  (0x104a0 <= n && n <= 0x104a9) ||
  (0x10d30 <= n && n <= 0x10d39) ||
  (0x11066 <= n && n <= 0x1106f) ||
  (0x110f0 <= n && n <= 0x110f9) ||
  (0x11136 <= n && n <= 0x1113f) ||
  (0x111d0 <= n && n <= 0x111d9) ||
  (0x112f0 <= n && n <= 0x112f9) ||
  (0x11450 <= n && n <= 0x11459) ||
  (0x114d0 <= n && n <= 0x114d9) ||
  (0x11650 <= n && n <= 0x11659) ||
  (0x116c0 <= n && n <= 0x116c9) ||
  (0x11730 <= n && n <= 0x11739) ||
  (0x118e0 <= n && n <= 0x118e9) ||
  (0x11950 <= n && n <= 0x11959) ||
  (0x11c50 <= n && n <= 0x11c59) ||
  (0x11d50 <= n && n <= 0x11d59) ||
  (0x11da0 <= n && n <= 0x11da9) ||
  (0x16a60 <= n && n <= 0x16a69) ||
  (0x16ac0 <= n && n <= 0x16ac9) ||
  (0x16b50 <= n && n <= 0x16b59) ||
  (0x1d7ce <= n && n <= 0x1d7ff) ||
  (0x1e140 <= n && n <= 0x1e149) ||
  (0x1e2f0 <= n && n <= 0x1e2f9) ||
  (0x1e950 <= n && n <= 0x1e959) ||
  (0x1fbf0 <= n && n <= 0x1fbf9)

/-- The character class `[A-Z]` of the validation regex. -/
def isUpperAZ (c : Char) : Bool :=
  let n := c.toNat
  0x41 <= n && n <= 0x5a

/-- The character class `[A-F0-9]` of the validation regex. -/
def isHexUp (c : Char) : Bool :=
  let n := c.toNat
  (0x30 <= n && n <= 0x39) || (0x41 <= n && n <= 0x46)

/-- The body of the pattern `\d{4}-[A-Z]{2}-\d{4}-[A-F0-9]{6}` matched
against a whole character list: exactly nineteen characters of the given
classes, hyphens at positions 4, 7 and 12. -/
def serialCore : List Char → Bool
  | [y0, y1, y2, y3, d0, a0, a1, d1, n0, n1, n2, n3, d2, v0, v1, v2, v3, v4, v5] =>
    isNdDigit y0 && isNdDigit y1 && isNdDigit y2 && isNdDigit y3 &&
    d0 == '-' &&
    isUpperAZ a0 && isUpperAZ a1 &&
    d1 == '-' &&
    isNdDigit n0 && isNdDigit n1 && isNdDigit n2 && isNdDigit n3 &&
    d2 == '-' &&
    isHexUp v0 && isHexUp v1 && isHexUp v2 && isHexUp v3 && isHexUp v4 && isHexUp v5
  | _ => false

/-- `validate_serial_number` of the source:
`bool(re.match(r'^\d{4}-[A-Z]{2}-\d{4}-[A-F0-9]{6}$', serial_number))`.
Python's `$` (without `re.MULTILINE`) matches at the end of the string or
just before a single trailing newline, hence the second disjunct. -/
def validate_serial_number (serial_number : String) : Bool :=
  serialCore serial_number.data ||
    (serial_number.data.getLast? == some '\n' && serialCore serial_number.data.dropLast)

example : validate_serial_number "2024-WD-0001-A1B2C3" = true := by decide
example : validate_serial_number "24-WD-0001-A1B2C3" = false := by decide
example : validate_serial_number "2024-wd-0001-A1B2C3" = false := by decide
example : validate_serial_number "2024-WD-0001-a1b2c3" = false := by decide
example : validate_serial_number "2024-WD-0001-A1B2C3\n" = true := by decide
example : validate_serial_number "2024-WD-0001-A1B2C3\n\n" = false := by decide
example : validate_serial_number "٢٠٢٤-WD-0001-A1B2C3" = true := by decide

/-! ## Decimal rendering

Python renders the non-negative integers of this system with `str(int)` and
`f"{n:04d}"`.  `natDigitsAux` is a fuel-based digit renderer; the fuel
`n + 1` always suffices since a number needs no more digits than its size. -/

/-- The decimal digit characters. -/
def digitChar (n : Nat) : Char :=
  if n = 0 then '0' else if n = 1 then '1' else if n = 2 then '2'
  else if n = 3 then '3' else if n = 4 then '4' else if n = 5 then '5'
  else if n = 6 then '6' else if n = 7 then '7' else if n = 8 then '8' else '9'

def natDigitsAux : Nat → Nat → List Char
  | 0, _ => []
  | fuel + 1, n =>
    if n < 10 then [digitChar n]
    else natDigitsAux fuel (n / 10) ++ [digitChar (n % 10)]

/-- Digit list of `str(n)` for a non-negative Python integer `n`. -/
def natDigits (n : Nat) : List Char := natDigitsAux (n + 1) n

/-- `str(n)` for a non-negative Python integer. -/
def natStr (n : Nat) : String := String.mk (natDigits n)

/-- `f"{n:04d}"` for a non-negative `n`: zero-pad on the left to width 4;
numbers of five or more digits keep all their digits. -/
def zeroPad4 (n : Nat) : String :=
  String.mk (List.replicate (4 - (natDigits n).length) '0' ++ natDigits n)

example : natStr 0 = "0" := by decide
example : natStr 2024 = "2024" := by decide
example : zeroPad4 1 = "0001" := by decide
example : zeroPad4 10000 = "10000" := by decide

/-- `str.upper()` applied character by character.  It agrees with Python's
`upper` on the ASCII range, which covers every course code the system's
two-character ASCII column stores. -/
def strUpper (s : String) : String := String.mk (s.data.map Char.toUpper)

/-! ## SHA-256 (FIPS 180-4), the embedding of `hashlib.sha256(...).hexdigest()` -/

/-- Truncation to a 32-bit word. -/
def w32 (n : Nat) : Nat := n % 4294967296

/-- Right rotation of a 32-bit word. -/
def rotr (k n : Nat) : Nat := w32 ((n >>> k) ||| (n <<< (32 - k)))

def shaCh (x y z : Nat) : Nat := (x &&& y) ^^^ ((x ^^^ 4294967295) &&& z)

def shaMaj (x y z : Nat) : Nat := (x &&& y) ^^^ (x &&& z) ^^^ (y &&& z)

def bsig0 (x : Nat) : Nat := rotr 2 x ^^^ rotr 13 x ^^^ rotr 22 x

def bsig1 (x : Nat) : Nat := rotr 6 x ^^^ rotr 11 x ^^^ rotr 25 x

def ssig0 (x : Nat) : Nat := rotr 7 x ^^^ rotr 18 x ^^^ (x >>> 3)

def ssig1 (x : Nat) : Nat := rotr 17 x ^^^ rotr 19 x ^^^ (x >>> 10)

/-- The 64 SHA-256 round constants of FIPS 180-4 (the first 32 bits of the
fractional parts of the cube roots of the first 64 primes), as decimal
numerals. -/
def shaK : List Nat :=
  [1116352408, 1899447441, 3049323471, 3921009573, 961987163,
   1508970993, 2453635748, 2870763221, 3624381080, 310598401,
   607225278, 1426881987, 1925078388, 2162078206, 2614888103,
   3248222580, 3835390401, 4022224774, 264347078, 604807628,
   770255983, 1249150122, 1555081692, 1996064986, 2554220882,
   2821834349, 2952996808, 3210313671, 3336571891, 3584528711,
   113926993, 338241895, 666307205, 773529912, 1294757372,
   1396182291, 1695183700, 1986661051, 2177026350, 2456956037,
   2730485921, 2820302411, 3259730800, 3345764771, 3516065817,
   3600352804, 4094571909, 275423344, 430227734, 506948616,
   659060556, 883997877, 958139571, 1322822218, 1537002063,
   1747873779, 1955562222, 2024104815, 2227730452, 2361852424,
   2428436474, 2756734187, 3204031479, 3329325298]

/-- A SHA-256 working state: eight 32-bit words. -/
structure Sha8 where
  a : Nat
  b : Nat
  c : Nat
  d : Nat
  e : Nat
  f : Nat
  g : Nat
  h : Nat
  deriving Repr, DecidableEq

/-- The SHA-256 initial hash value of FIPS 180-4, as decimal numerals. -/
def shaH0 : Sha8 :=
  ⟨1779033703, 3144134277, 1013904242, 2773480762,
   1359893119, 2600822924, 528734635, 1541459225⟩

/-- Big-endian 8-byte rendering of the bit length. -/
def be64 (n : Nat) : List Nat :=
  [(n >>> 56) &&& 255, (n >>> 48) &&& 255, (n >>> 40) &&& 255, (n >>> 32) &&& 255,
   (n >>> 24) &&& 255, (n >>> 16) &&& 255, (n >>> 8) &&& 255, n &&& 255]

/-- The sixteen 32-bit big-endian words of one 64-byte block. -/
def toWords16 (block : List Nat) : List Nat :=
  (List.range 16).map (fun i =>
    (block.getD (4 * i) 0) <<< 24 ||| (block.getD (4 * i + 1) 0) <<< 16 |||
    (block.getD (4 * i + 2) 0) <<< 8 ||| block.getD (4 * i + 3) 0)

/-- Message-schedule extension from 16 to 64 words. -/
def extendWords (ws : List Nat) : List Nat :=
  (List.range 48).foldl
    (fun w i =>
      let t := i + 16
      w ++ [w32 (ssig1 (w.getD (t - 2) 0) + w.getD (t - 7) 0 +
                 ssig0 (w.getD (t - 15) 0) + w.getD (t - 16) 0)])
    ws

/-- One round of the compression function; `kw` is `K[t] + W[t]`. -/
def compressStep (kw : Nat) (s : Sha8) : Sha8 :=
  let t1 := w32 (s.h + bsig1 s.e + shaCh s.e s.f s.g + kw)
  let t2 := w32 (bsig0 s.a + shaMaj s.a s.b s.c)
  ⟨w32 (t1 + t2), s.a, s.b, s.c, w32 (s.d + t1), s.e, s.f, s.g⟩

/-- Process one 64-byte block. -/
def processBlock (st : Sha8) (block : List Nat) : Sha8 :=
  let w := extendWords (toWords16 block)
  let s2 := (List.range 64).foldl (fun s t => compressStep (shaK.getD t 0 + w.getD t 0) s) st
  ⟨w32 (st.a + s2.a), w32 (st.b + s2.b), w32 (st.c + s2.c), w32 (st.d + s2.d),
   w32 (st.e + s2.e), w32 (st.f + s2.f), w32 (st.g + s2.g), w32 (st.h + s2.h)⟩

/-- SHA-256 of a byte list: pad, then fold the compression over the blocks;
the result is the eight 32-bit words of the digest. -/
def sha256Words (msg : List Nat) : Sha8 :=
  let padded := msg ++ [128] ++ List.replicate ((119 - msg.length % 64) % 64) 0 ++
    be64 (8 * msg.length)
  (List.range (padded.length / 64)).foldl
    (fun st i => processBlock st ((padded.drop (64 * i)).take 64)) shaH0

/-- UTF-8 encoding of one character (the bytes `str.encode()` produces). -/
def utf8Char (c : Char) : List Nat :=
  let n := c.toNat
  if n < 0x80 then [n]
  else if n < 0x800 then [0xc0 ||| (n >>> 6), 0x80 ||| (n &&& 0x3f)]
  else if n < 0x10000 then
    [0xe0 ||| (n >>> 12), 0x80 ||| ((n >>> 6) &&& 0x3f), 0x80 ||| (n &&& 0x3f)]
  else
    [0xf0 ||| (n >>> 18), 0x80 ||| ((n >>> 12) &&& 0x3f),
     0x80 ||| ((n >>> 6) &&& 0x3f), 0x80 ||| (n &&& 0x3f)]

/-- UTF-8 encoding of a string, as `str.encode()` produces it. -/
def utf8Encode (s : String) : List Nat := (s.data.map utf8Char).flatten

/-- The lowercase hexadecimal digit characters. -/
def hexChar (n : Nat) : Char :=
  if n = 0 then '0' else if n = 1 then '1' else if n = 2 then '2'
  else if n = 3 then '3' else if n = 4 then '4' else if n = 5 then '5'
  else if n = 6 then '6' else if n = 7 then '7' else if n = 8 then '8'
  else if n = 9 then '9' else if n = 10 then 'a' else if n = 11 then 'b'
  else if n = 12 then 'c' else if n = 13 then 'd' else if n = 14 then 'e' else 'f'

/-- The eight lowercase hex characters of one 32-bit word, most significant
nibble first. -/
def word2hex (n : Nat) : List Char :=
  (List.range 8).map (fun i => hexChar ((n >>> (28 - 4 * i)) &&& 15))

/-- `hashlib.sha256(s.encode()).hexdigest()`: the 64-character lowercase
hexadecimal digest of the UTF-8 encoding of `s`. -/
def sha256hex (s : String) : String :=
  let d := sha256Words (utf8Encode s)
  String.mk (word2hex d.a ++ word2hex d.b ++ word2hex d.c ++ word2hex d.d ++
    word2hex d.e ++ word2hex d.f ++ word2hex d.g ++ word2hex d.h)

/-- `h[:6].upper()` applied to a hex digest: the first six characters,
upper-cased character by character. -/
def first6upper (s : String) : String :=
  String.mk ((s.data.take 6).map Char.toUpper)

set_option maxRecDepth 100000

example : sha256hex "abc" =
    "ba7816bf8f01cfea414140de5dae2223b00361a396177a9cb410ff61f20015ad" := by decide
example : sha256hex "" =
    "e3b0c44298fc1c149afbf4c8996fb92427ae41e4649b934ca495991b7852b855" := by decide
example : first6upper (sha256hex "1-1-2024-0001") = "473895" := by decide

/-! ## Data model (`backend/models/certificate_models.py`)

Only the columns the serial-number core reads or writes are carried;
`issue_date` is kept to make the independence claims about it statable. -/

/-- The `courses` row, restricted to the columns the core uses. -/
structure Course where
  id : Nat
  course_code : String
  course_name : String
  deriving Repr, DecidableEq

/-- The `certificates` row, restricted to the columns the core uses. -/
structure Certificate where
  id : Nat
  student_id : Nat
  course_id : Nat
  serial_number : String
  sequential_part : Nat
  hash_part : String
  issue_date : Nat
  issue_year : Nat
  status : String
  deriving Repr, DecidableEq

/-- The store: the two tables the serial-number core queries.  A SQLAlchemy
`.first()` becomes `List.find?`, a filter becomes `List.filter`. -/
structure DB where
  courses : List Course
  certificates : List Certificate
  deriving Repr

/-- `db.query(Course).filter(Course.id == course_id).first()`. -/
def findCourse (db : DB) (course_id : Nat) : Option Course :=
  db.courses.find? (fun c => c.id == course_id)

/-- `db.query(Certificate).filter(Certificate.serial_number == serial).first()`. -/
def findCertificate (db : DB) (serial_number : String) : Option Certificate :=
  db.certificates.find? (fun c => c.serial_number == serial_number)

/-- SQL `MAX` over a list of values: `none` on the empty list. -/
def maxNat? : List Nat → Option Nat
  | [] => none
  | x :: xs => some (xs.foldl Nat.max x)

/-- The `sequential_part` values of the certificates of one
`(course_id, issue_year)` partition, in store order. -/
def partitionSeqs (db : DB) (course_id current_year : Nat) : List Nat :=
  (db.certificates.filter
    (fun c => c.course_id == course_id && c.issue_year == current_year)).map
    (fun c => c.sequential_part)

/-- `db.query(func.max(Certificate.sequential_part)).filter(and_(...)).scalar()`. -/
def maxSequential (db : DB) (course_id current_year : Nat) : Option Nat :=
  maxNat? (partitionSeqs db course_id current_year)

/-! ## The serial-number core (`backend/utils/certificate_generator.py`) -/

/-- The tuple `(serial_number, sequential_part, hash_part)` the generator
returns. -/
structure GenResult where
  serial_number : String
  sequential_part : Nat
  hash_part : String
  deriving Repr, DecidableEq

/-- `generate_serial_number(db, student_id, course_id)`.  The source reads
the clock (`datetime.now().year`); here the clock is the explicit
`current_year` argument.  `raise ValueError(...)` becomes `.error`.
`max_sequential or 0` agrees with `Option.getD 0` because both send `None`
and `0` to `0` and every positive value to itself. -/
def generate_serial_number (db : DB) (student_id course_id : Nat)
    (current_year : Nat) : Except String GenResult :=
  match findCourse db course_id with
  | none => .error ("Course with ID " ++ natStr course_id ++ " not found")
  | some course =>
    let course_code := strUpper course.course_code
    let max_sequential := maxSequential db course_id current_year
    let next_sequential := max_sequential.getD 0 + 1
    let sequential_str := zeroPad4 next_sequential
    let hash_input := natStr student_id ++ "-" ++ natStr course_id ++ "-" ++
      natStr current_year ++ "-" ++ sequential_str
    let verification_hash := first6upper (sha256hex hash_input)
    let serial_number := natStr current_year ++ "-" ++ course_code ++ "-" ++
      sequential_str ++ "-" ++ verification_hash
    .ok ⟨serial_number, next_sequential, verification_hash⟩

/-- The dictionary `verify_certificate_authenticity` returns. -/
structure VerifyResult where
  is_valid : Bool
  reason : String
  certificate : Option Certificate
  deriving Repr, DecidableEq

/-- Python's `serial.split('-')` on a character list. -/
def splitDash : List Char → List (List Char)
  | [] => [[]]
  | c :: rest =>
    match splitDash rest with
    | [] => [[]]
    | p :: ps => if c = '-' then [] :: p :: ps else (c :: p) :: ps

/-- `verify_certificate_authenticity(db, serial_number)`.  The four-way
unpacking `year, course_code, sequential, provided_hash = parts` is the
four-element match; every validated serial has exactly three hyphens, so
the fall-through branch is unreachable (`splitDash_of_validated` below). -/
def verify_certificate_authenticity (db : DB) (serial_number : String) :
    VerifyResult :=
  if validate_serial_number serial_number = false then
    ⟨false, "Invalid serial number format", none⟩
  else
    match findCertificate db serial_number with
    | none => ⟨false, "Certificate not found in database", none⟩
    | some certificate =>
      if certificate.status != "active" then
        ⟨false, "Certificate status is " ++ certificate.status, some certificate⟩
      else
        match splitDash serial_number.data with
        | [year, _code, sequential, provided_hash] =>
          let hash_input := natStr certificate.student_id ++ "-" ++
            natStr certificate.course_id ++ "-" ++ String.mk year ++ "-" ++
            String.mk sequential
          let expected_hash := first6upper (sha256hex hash_input)
          if String.mk provided_hash != expected_hash then
            ⟨false, "Hash verification failed - certificate may be forged",
              some certificate⟩
          else
            ⟨true, "Certificate is authentic and valid", some certificate⟩
        | _ => ⟨false, "Invalid serial number format", none⟩

/-- Persist one generated certificate: the caller-side insert the spec
describes (new row with the generated serial, sequence, checksum, the
year the generator used, and status `active`).  A failed generation
leaves the store unchanged. -/
def issueOne (db : DB) (student_id course_id current_year : Nat) : DB :=
  match generate_serial_number db student_id course_id current_year with
  | .error _ => db
  | .ok r =>
    { db with
      certificates := db.certificates ++
        [{ id := 0, student_id := student_id, course_id := course_id,
           serial_number := r.serial_number,
           sequential_part := r.sequential_part, hash_part := r.hash_part,
           issue_date := 0, issue_year := current_year, status := "active" }] }

/-- `n` serial issuances, each persisted before the next begins. -/
def issueMany (db : DB) (student_id course_id current_year : Nat) : Nat → DB
  | 0 => db
  | n + 1 => issueOne (issueMany db student_id course_id current_year n)
      student_id course_id current_year

instance : DecidableEq (Except String GenResult) :=
  fun a b =>
    match a, b with
    | .ok x, .ok y =>
      if h : x = y then .isTrue (by rw [h]) else .isFalse (fun hh => by cases hh; exact h rfl)
    | .error x, .error y =>
      if h : x = y then .isTrue (by rw [h]) else .isFalse (fun hh => by cases hh; exact h rfl)
    | .ok _, .error _ => .isFalse (fun hh => by cases hh)
    | .error _, .ok _ => .isFalse (fun hh => by cases hh)

/-- A string of exactly two uppercase Latin letters: the shape the spec's
input contract requires of an (upper-cased) course code. -/
def isTwoUpper (s : String) : Bool :=
  match s.data with
  | [a, b] => isUpperAZ a && isUpperAZ b
  | _ => false

/-! ## Character-class lemmas -/

theorem isNdDigit_ne_dash {c : Char} (h : isNdDigit c = true) : c ≠ '-' := by
  intro hc; subst hc; simp [isNdDigit] at h

theorem isUpperAZ_ne_dash {c : Char} (h : isUpperAZ c = true) : c ≠ '-' := by
  intro hc; subst hc; simp [isUpperAZ] at h

theorem isHexUp_ne_dash {c : Char} (h : isHexUp c = true) : c ≠ '-' := by
  intro hc; subst hc; simp [isHexUp] at h

theorem digitChar_nd (n : Nat) : isNdDigit (digitChar n) = true := by
  by_cases h9 : n ≤ 9
  · interval_cases n <;> decide
  · have h : digitChar n = '9' := by
      unfold digitChar
      repeat rw [if_neg (by omega)]
    rw [h]; decide

theorem digitChar_ne_dash (n : Nat) : digitChar n ≠ '-' :=
  isNdDigit_ne_dash (digitChar_nd n)

theorem hexUp_toUpper_hexChar {m : Nat} (h : m < 16) :
    isHexUp (Char.toUpper (hexChar m)) = true := by
  interval_cases m <;> decide

/-! ## Decimal-rendering lemmas -/

theorem natDigitsAux_irrel :
    ∀ n f1 f2 : Nat, n < f1 → n < f2 → natDigitsAux f1 n = natDigitsAux f2 n := by
  intro n
  induction n using Nat.strong_induction_on with
  | _ n ih =>
    intro f1 f2 h1 h2
    match f1, h1 with
    | g1 + 1, h1 =>
      match f2, h2 with
      | g2 + 1, h2 =>
        simp only [natDigitsAux]
        by_cases hn : n < 10
        · simp [hn]
        · have hd : n / 10 < n := Nat.div_lt_self (by omega) (by omega)
          rw [if_neg hn, if_neg hn, ih (n / 10) hd g1 g2 (by omega) (by omega)]

theorem natDigits_lt10 {n : Nat} (h : n < 10) : natDigits n = [digitChar n] := by
  simp [natDigits, natDigitsAux, h]

theorem natDigits_step {n : Nat} (h : 10 ≤ n) :
    natDigits n = natDigits (n / 10) ++ [digitChar (n % 10)] := by
  have hd : n / 10 < n := Nat.div_lt_self (by omega) (by omega)
  show natDigitsAux (n + 1) n = _
  simp only [natDigitsAux, if_neg (by omega : ¬ n < 10)]
  rw [natDigitsAux_irrel (n / 10) n (n / 10 + 1) (by omega) (by omega)]
  rfl

theorem natDigits_2 {n : Nat} (h1 : 10 ≤ n) (h2 : n < 100) :
    natDigits n = [digitChar (n / 10), digitChar (n % 10)] := by
  rw [natDigits_step h1, natDigits_lt10 (by omega : n / 10 < 10)]
  rfl

theorem natDigits_3 {n : Nat} (h1 : 100 ≤ n) (h2 : n < 1000) :
    natDigits n = [digitChar (n / 100), digitChar (n / 10 % 10), digitChar (n % 10)] := by
  rw [natDigits_step (by omega : 10 ≤ n),
    natDigits_2 (by omega : 10 ≤ n / 10) (by omega : n / 10 < 100),
    Nat.div_div_eq_div_mul]
  norm_num

theorem natDigits_4 {n : Nat} (h1 : 1000 ≤ n) (h2 : n < 10000) :
    natDigits n = [digitChar (n / 1000), digitChar (n / 100 % 10),
      digitChar (n / 10 % 10), digitChar (n % 10)] := by
  rw [natDigits_step (by omega : 10 ≤ n),
    natDigits_3 (by omega : 100 ≤ n / 10) (by omega : n / 10 < 1000),
    Nat.div_div_eq_div_mul, Nat.div_div_eq_div_mul]
  norm_num

/-- A character that the `\d` of the validation regex accepts and that is
not a hyphen: the class every character of a decimal rendering lands in. -/
def ndChar (c : Char) : Prop := isNdDigit c = true ∧ c ≠ '-'

theorem ndChar_digitChar (n : Nat) : ndChar (digitChar n) :=
  ⟨digitChar_nd n, digitChar_ne_dash n⟩

theorem ndChar_zero : ndChar '0' := by constructor <;> decide

theorem zeroPad4_shape {q : Nat} (h : q ≤ 9999) :
    ∃ a b c d, (zeroPad4 q).data = [a, b, c, d] ∧
      ndChar a ∧ ndChar b ∧ ndChar c ∧ ndChar d := by
  by_cases h1 : q < 10
  · refine ⟨'0', '0', '0', digitChar q, ?_, ndChar_zero, ndChar_zero, ndChar_zero,
      ndChar_digitChar q⟩
    simp [zeroPad4, natDigits_lt10 h1, List.replicate]
  · by_cases h2 : q < 100
    · refine ⟨'0', '0', digitChar (q / 10), digitChar (q % 10), ?_, ndChar_zero,
        ndChar_zero, ndChar_digitChar _, ndChar_digitChar _⟩
      simp [zeroPad4, natDigits_2 (by omega) h2, List.replicate]
    · by_cases h3 : q < 1000
      · refine ⟨'0', digitChar (q / 100), digitChar (q / 10 % 10), digitChar (q % 10),
          ?_, ndChar_zero, ndChar_digitChar _, ndChar_digitChar _, ndChar_digitChar _⟩
        simp [zeroPad4, natDigits_3 (by omega) h3, List.replicate]
      · refine ⟨digitChar (q / 1000), digitChar (q / 100 % 10), digitChar (q / 10 % 10),
          digitChar (q % 10), ?_, ndChar_digitChar _, ndChar_digitChar _,
          ndChar_digitChar _, ndChar_digitChar _⟩
        have h4 : natDigits q = [digitChar (q / 1000), digitChar (q / 100 % 10),
            digitChar (q / 10 % 10), digitChar (q % 10)] :=
          natDigits_4 (by omega) (by omega)
        simp [zeroPad4, h4, List.replicate]

theorem natStr_year_shape {y : Nat} (h1 : 1000 ≤ y) (h2 : y ≤ 9999) :
    ∃ a b c d, (natStr y).data = [a, b, c, d] ∧
      ndChar a ∧ ndChar b ∧ ndChar c ∧ ndChar d := by
  refine ⟨digitChar (y / 1000), digitChar (y / 100 % 10), digitChar (y / 10 % 10),
    digitChar (y % 10), ?_, ndChar_digitChar _, ndChar_digitChar _, ndChar_digitChar _,
    ndChar_digitChar _⟩
  simp [natStr, natDigits_4 h1 (by omega)]

/-! ## Digest-shape lemmas -/

/-- A character in `[A-F0-9]` that is not a hyphen: the class every
checksum character lands in. -/
def hexUpChar (c : Char) : Prop := isHexUp c = true ∧ c ≠ '-'

theorem and15_lt (x : Nat) : x &&& 15 < 16 :=
  Nat.lt_succ_of_le Nat.and_le_right

theorem hexUpChar_entry (x : Nat) : hexUpChar (Char.toUpper (hexChar (x &&& 15))) :=
  ⟨hexUp_toUpper_hexChar (and15_lt x),
   isHexUp_ne_dash (hexUp_toUpper_hexChar (and15_lt x))⟩

theorem first6upper_sha_shape (s : String) :
    ∃ c0 c1 c2 c3 c4 c5, (first6upper (sha256hex s)).data = [c0, c1, c2, c3, c4, c5] ∧
      hexUpChar c0 ∧ hexUpChar c1 ∧ hexUpChar c2 ∧ hexUpChar c3 ∧
      hexUpChar c4 ∧ hexUpChar c5 := by
  have hr : List.range 8 = [0, 1, 2, 3, 4, 5, 6, 7] := rfl
  refine ⟨Char.toUpper (hexChar ((sha256Words (utf8Encode s)).a >>> 28 &&& 15)),
    Char.toUpper (hexChar ((sha256Words (utf8Encode s)).a >>> 24 &&& 15)),
    Char.toUpper (hexChar ((sha256Words (utf8Encode s)).a >>> 20 &&& 15)),
    Char.toUpper (hexChar ((sha256Words (utf8Encode s)).a >>> 16 &&& 15)),
    Char.toUpper (hexChar ((sha256Words (utf8Encode s)).a >>> 12 &&& 15)),
    Char.toUpper (hexChar ((sha256Words (utf8Encode s)).a >>> 8 &&& 15)),
    ?_, hexUpChar_entry _, hexUpChar_entry _, hexUpChar_entry _,
    hexUpChar_entry _, hexUpChar_entry _, hexUpChar_entry _⟩
  simp [first6upper, sha256hex, word2hex, hr]

/-! ## Lemmas about `split('-')` -/

theorem splitDash_ne_nil (xs : List Char) : splitDash xs ≠ [] := by
  cases xs with
  | nil => simp [splitDash]
  | cons c rest =>
    cases h : splitDash rest with
    | nil => simp [splitDash, h]
    | cons p ps => simp only [splitDash, h]; split <;> simp

theorem splitDash_no_dash {xs : List Char} (h : ∀ c ∈ xs, c ≠ '-') :
    splitDash xs = [xs] := by
  induction xs with
  | nil => rfl
  | cons c rest ih =>
    have hc : c ≠ '-' := h c (by simp)
    rw [splitDash, ih (fun x hx => h x (by simp [hx]))]
    simp [hc]

theorem splitDash_append {xs rest : List Char} (h : ∀ c ∈ xs, c ≠ '-') :
    splitDash (xs ++ '-' :: rest) = xs :: splitDash rest := by
  induction xs with
  | nil =>
    obtain ⟨p, ps, hp⟩ : ∃ p ps, splitDash rest = p :: ps := by
      cases hs : splitDash rest with
      | nil => exact absurd hs (splitDash_ne_nil rest)
      | cons p ps => exact ⟨p, ps, rfl⟩
    simp [splitDash, hp]
  | cons c xs ih =>
    have hc : c ≠ '-' := h c (by simp)
    have hih := ih (fun x hx => h x (by simp [hx]))
    rw [List.cons_append, splitDash, hih]
    simp [hc]

/-! ## String plumbing -/

theorem mk_data (s : String) : String.mk s.data = s := by
  obtain ⟨l⟩ := s; rfl

theorem isTwoUpper_shape {s : String} (h : isTwoUpper s = true) :
    ∃ a b, s.data = [a, b] ∧ isUpperAZ a = true ∧ isUpperAZ b = true := by
  rcases hs : s.data with _ | ⟨a, _ | ⟨b, _ | ⟨c, t⟩⟩⟩ <;>
    rw [isTwoUpper, hs] at h
  · simp at h
  · simp at h
  · exact ⟨a, b, rfl, by simpa using h⟩
  · simp at h

theorem dash_data : "-".data = ['-'] := rfl

/-! ## The exact output of a successful generation -/

theorem generate_ok_eq {db : DB} {sid cid year : Nat} {course : Course} {r : GenResult}
    (hc : findCourse db cid = some course)
    (hg : generate_serial_number db sid cid year = .ok r) :
    r.sequential_part = (maxSequential db cid year).getD 0 + 1 ∧
    r.hash_part = first6upper (sha256hex (natStr sid ++ "-" ++ natStr cid ++ "-" ++
      natStr year ++ "-" ++ zeroPad4 r.sequential_part)) ∧
    r.serial_number = natStr year ++ "-" ++ strUpper course.course_code ++ "-" ++
      zeroPad4 r.sequential_part ++ "-" ++ r.hash_part := by
  simp only [generate_serial_number, hc] at hg
  injection hg with hg
  subst hg
  exact ⟨rfl, rfl, rfl⟩

/-- A successful generation composes the serial out of the four segments,
and splitting it on hyphens recovers them: the year rendering, the
upper-cased course code, the padded sequence and the checksum.  Needs the
year to be four digits, the sequence at most `9999`, and the upper-cased
course code to be two Latin letters. -/
theorem generated_serial_parts {db : DB} {sid cid year : Nat} {course : Course}
    {r : GenResult}
    (hc : findCourse db cid = some course)
    (hg : generate_serial_number db sid cid year = .ok r)
    (hy1 : 1000 ≤ year) (hy2 : year ≤ 9999)
    (hq : r.sequential_part ≤ 9999)
    (hcode : isTwoUpper (strUpper course.course_code) = true) :
    serialCore r.serial_number.data = true ∧
    splitDash r.serial_number.data =
      [(natStr year).data, (strUpper course.course_code).data,
       (zeroPad4 r.sequential_part).data, r.hash_part.data] := by
  obtain ⟨hseq, hhash, hser⟩ := generate_ok_eq hc hg
  obtain ⟨y0, y1, y2, y3, hy, hcy0, hcy1, hcy2, hcy3⟩ := natStr_year_shape hy1 hy2
  obtain ⟨a0, a1, ha, ha0, ha1⟩ := isTwoUpper_shape hcode
  obtain ⟨q0, q1, q2, q3, hqd, hcq0, hcq1, hcq2, hcq3⟩ := zeroPad4_shape hq
  obtain ⟨v0, v1, v2, v3, v4, v5, hv, hv0, hv1, hv2, hv3, hv4, hv5⟩ :=
    first6upper_sha_shape (natStr sid ++ "-" ++ natStr cid ++ "-" ++ natStr year ++
      "-" ++ zeroPad4 r.sequential_part)
  have hvdata : r.hash_part.data = [v0, v1, v2, v3, v4, v5] := by rw [hhash, hv]
  have hdata : r.serial_number.data =
      [y0, y1, y2, y3, '-', a0, a1, '-', q0, q1, q2, q3, '-', v0, v1, v2, v3, v4, v5] := by
    rw [hser]
    simp [String.data_append, dash_data, hy, ha, hqd, hvdata]
  constructor
  · rw [hdata]
    simp [serialCore, hcy0.1, hcy1.1, hcy2.1, hcy3.1, ha0, ha1, hcq0.1, hcq1.1,
      hcq2.1, hcq3.1, hv0.1, hv1.1, hv2.1, hv3.1, hv4.1, hv5.1]
  · rw [hdata, hy, ha, hqd, hvdata]
    show splitDash ([y0, y1, y2, y3] ++ '-' :: ([a0, a1] ++ '-' ::
      ([q0, q1, q2, q3] ++ '-' :: [v0, v1, v2, v3, v4, v5]))) = _
    rw [splitDash_append (by
        intro c hcm; simp at hcm
        rcases hcm with rfl | rfl | rfl | rfl
        exacts [hcy0.2, hcy1.2, hcy2.2, hcy3.2]),
      splitDash_append (by
        intro c hcm; simp at hcm
        rcases hcm with rfl | rfl
        exacts [isUpperAZ_ne_dash ha0, isUpperAZ_ne_dash ha1]),
      splitDash_append (by
        intro c hcm; simp at hcm
        rcases hcm with rfl | rfl | rfl | rfl
        exacts [hcq0.2, hcq1.2, hcq2.2, hcq3.2]),
      splitDash_no_dash (by
        intro c hcm; simp at hcm
        rcases hcm with rfl | rfl | rfl | rfl | rfl | rfl
        exacts [hv0.2, hv1.2, hv2.2, hv3.2, hv4.2, hv5.2])]

/-! ## Destructuring a validated serial -/

theorem serialCore_destruct {cs : List Char} (h : serialCore cs = true) :
    ∃ y0 y1 y2 y3 a0 a1 n0 n1 n2 n3 v0 v1 v2 v3 v4 v5,
      cs = [y0, y1, y2, y3, '-', a0, a1, '-', n0, n1, n2, n3, '-',
        v0, v1, v2, v3, v4, v5] ∧
      isNdDigit y0 = true ∧ isNdDigit y1 = true ∧ isNdDigit y2 = true ∧
      isNdDigit y3 = true ∧ isUpperAZ a0 = true ∧ isUpperAZ a1 = true ∧
      isNdDigit n0 = true ∧ isNdDigit n1 = true ∧ isNdDigit n2 = true ∧
      isNdDigit n3 = true ∧ isHexUp v0 = true ∧ isHexUp v1 = true ∧
      isHexUp v2 = true ∧ isHexUp v3 = true ∧ isHexUp v4 = true ∧
      isHexUp v5 = true := by
  rcases cs with _ | ⟨y0, cs⟩; · simp [serialCore] at h
  rcases cs with _ | ⟨y1, cs⟩; · simp [serialCore] at h
  rcases cs with _ | ⟨y2, cs⟩; · simp [serialCore] at h
  rcases cs with _ | ⟨y3, cs⟩; · simp [serialCore] at h
  rcases cs with _ | ⟨d0, cs⟩; · simp [serialCore] at h
  rcases cs with _ | ⟨a0, cs⟩; · simp [serialCore] at h
  rcases cs with _ | ⟨a1, cs⟩; · simp [serialCore] at h
  rcases cs with _ | ⟨d1, cs⟩; · simp [serialCore] at h
  rcases cs with _ | ⟨n0, cs⟩; · simp [serialCore] at h
  rcases cs with _ | ⟨n1, cs⟩; · simp [serialCore] at h
  rcases cs with _ | ⟨n2, cs⟩; · simp [serialCore] at h
  rcases cs with _ | ⟨n3, cs⟩; · simp [serialCore] at h
  rcases cs with _ | ⟨d2, cs⟩; · simp [serialCore] at h
  rcases cs with _ | ⟨v0, cs⟩; · simp [serialCore] at h
  rcases cs with _ | ⟨v1, cs⟩; · simp [serialCore] at h
  rcases cs with _ | ⟨v2, cs⟩; · simp [serialCore] at h
  rcases cs with _ | ⟨v3, cs⟩; · simp [serialCore] at h
  rcases cs with _ | ⟨v4, cs⟩; · simp [serialCore] at h
  rcases cs with _ | ⟨v5, cs⟩; · simp [serialCore] at h
  rcases cs with _ | ⟨z, cs⟩
  case cons => simp [serialCore] at h
  simp only [serialCore, Bool.and_eq_true, beq_iff_eq] at h
  obtain ⟨⟨⟨⟨⟨⟨⟨⟨⟨⟨⟨⟨⟨⟨⟨⟨⟨⟨h1, h2⟩, h3⟩, h4⟩, h5⟩, h6⟩, h7⟩, h8⟩, h9⟩, h10⟩,
    h11⟩, h12⟩, h13⟩, h14⟩, h15⟩, h16⟩, h17⟩, h18⟩, h19⟩ := h
  subst h5 h8 h13
  exact ⟨y0, y1, y2, y3, a0, a1, n0, n1, n2, n3, v0, v1, v2, v3, v4, v5, rfl,
    h1, h2, h3, h4, h6, h7, h9, h10, h11, h12, h14, h15, h16, h17, h18, h19⟩

/-! ## Segment characterization of the accepted language -/

theorem list_len2 {α : Type} {l : List α} (h : l.length = 2) :
    ∃ a b, l = [a, b] := by
  rcases l with _ | ⟨a, _ | ⟨b, _ | ⟨c, t⟩⟩⟩ <;> simp at h
  exact ⟨a, b, rfl⟩

theorem list_len4 {α : Type} {l : List α} (h : l.length = 4) :
    ∃ a b c d, l = [a, b, c, d] := by
  rcases l with _ | ⟨a, _ | ⟨b, _ | ⟨c, _ | ⟨d, _ | ⟨e, t⟩⟩⟩⟩⟩ <;> simp at h
  exact ⟨a, b, c, d, rfl⟩

theorem list_len6 {α : Type} {l : List α} (h : l.length = 6) :
    ∃ a b c d e f, l = [a, b, c, d, e, f] := by
  rcases l with _ | ⟨a, _ | ⟨b, _ | ⟨c, _ | ⟨d, _ | ⟨e, _ | ⟨f, _ | ⟨g, t⟩⟩⟩⟩⟩⟩⟩ <;> simp at h
  exact ⟨a, b, c, d, e, f, rfl⟩

/-- The language of the regex body, phrased segment-wise as the spec
phrases it: four digit characters, a hyphen, two uppercase Latin letters,
a hyphen, four digit characters, a hyphen, six `[A-F0-9]` characters —
with "digit" being what Python's `\d` accepts, any Unicode decimal digit. -/
def pySerialShape (cs : List Char) : Prop :=
  ∃ ys as ns vs, cs = ys ++ ['-'] ++ as ++ ['-'] ++ ns ++ ['-'] ++ vs ∧
    ys.length = 4 ∧ as.length = 2 ∧ ns.length = 4 ∧ vs.length = 6 ∧
    (∀ c ∈ ys, isNdDigit c = true) ∧ (∀ c ∈ as, isUpperAZ c = true) ∧
    (∀ c ∈ ns, isNdDigit c = true) ∧ (∀ c ∈ vs, isHexUp c = true)

theorem serialCore_iff_pyShape (cs : List Char) :
    serialCore cs = true ↔ pySerialShape cs := by
  constructor
  · intro h
    obtain ⟨y0, y1, y2, y3, a0, a1, n0, n1, n2, n3, v0, v1, v2, v3, v4, v5,
      rfl, c1, c2, c3, c4, c5, c6, c7, c8, c9, c10, c11, c12, c13, c14, c15, c16⟩ :=
      serialCore_destruct h
    refine ⟨[y0, y1, y2, y3], [a0, a1], [n0, n1, n2, n3], [v0, v1, v2, v3, v4, v5],
      by simp, rfl, rfl, rfl, rfl, ?_, ?_, ?_, ?_⟩ <;>
      (intro c hcm; simp at hcm)
    · rcases hcm with rfl | rfl | rfl | rfl
      exacts [c1, c2, c3, c4]
    · rcases hcm with rfl | rfl
      exacts [c5, c6]
    · rcases hcm with rfl | rfl | rfl | rfl
      exacts [c7, c8, c9, c10]
    · rcases hcm with rfl | rfl | rfl | rfl | rfl | rfl
      exacts [c11, c12, c13, c14, c15, c16]
  · rintro ⟨ys, as, ns, vs, rfl, hys, has, hns, hvs, hy, ha, hn, hv⟩
    obtain ⟨y0, y1, y2, y3, rfl⟩ := list_len4 hys
    obtain ⟨a0, a1, rfl⟩ := list_len2 has
    obtain ⟨n0, n1, n2, n3, rfl⟩ := list_len4 hns
    obtain ⟨v0, v1, v2, v3, v4, v5, rfl⟩ := list_len6 hvs
    simp only [List.cons_append, List.nil_append, serialCore]
    simp [hy y0 (by simp), hy y1 (by simp), hy y2 (by simp), hy y3 (by simp),
      ha a0 (by simp), ha a1 (by simp),
      hn n0 (by simp), hn n1 (by simp), hn n2 (by simp), hn n3 (by simp),
      hv v0 (by simp), hv v1 (by simp), hv v2 (by simp), hv v3 (by simp),
      hv v4 (by simp), hv v5 (by simp)]

/-- The shape the claim describes, in the claim's own terms: ASCII digits
(`Char.isDigit`), uppercase Latin letters, `[A-F0-9]` checksum characters,
three hyphens, nothing before or after.  (The claim also says "fixed width
18", which is inconsistent with its own segment arithmetic —
4+1+2+1+4+1+6 = 19 — so the width is taken from the segments.) -/
def specSerialFormat (s : String) : Bool :=
  match s.data with
  | [y0, y1, y2, y3, d0, a0, a1, d1, n0, n1, n2, n3, d2, v0, v1, v2, v3, v4, v5] =>
    y0.isDigit && y1.isDigit && y2.isDigit && y3.isDigit &&
    d0 == '-' &&
    isUpperAZ a0 && isUpperAZ a1 &&
    d1 == '-' &&
    n0.isDigit && n1.isDigit && n2.isDigit && n3.isDigit &&
    d2 == '-' &&
    isHexUp v0 && isHexUp v1 && isHexUp v2 && isHexUp v3 && isHexUp v4 && isHexUp v5
  | _ => false

/-! ## Sequence-allocation lemmas -/

theorem generate_ok_of_course {db : DB} {cid : Nat} {course : Course}
    (sid year : Nat) (hc : findCourse db cid = some course) :
    ∃ r, generate_serial_number db sid cid year = .ok r := by
  unfold generate_serial_number
  rw [hc]
  exact ⟨_, rfl⟩

theorem issueOne_courses (db : DB) (sid cid year : Nat) :
    (issueOne db sid cid year).courses = db.courses := by
  unfold issueOne
  cases generate_serial_number db sid cid year <;> rfl

theorem issueMany_courses (db : DB) (sid cid year n : Nat) :
    (issueMany db sid cid year n).courses = db.courses := by
  induction n with
  | zero => rfl
  | succ m ih => rw [issueMany, issueOne_courses, ih]

theorem issueOne_partition {db : DB} {sid cid year : Nat} {r : GenResult}
    (hg : generate_serial_number db sid cid year = .ok r) :
    partitionSeqs (issueOne db sid cid year) cid year =
      partitionSeqs db cid year ++ [r.sequential_part] := by
  unfold issueOne
  rw [hg]
  simp [partitionSeqs, List.filter_append]

theorem maxNat?_concat (l : List Nat) (y : Nat) :
    maxNat? (l ++ [y]) =
      some (match maxNat? l with | none => y | some m => Nat.max m y) := by
  cases l with
  | nil => rfl
  | cons x xs => simp [maxNat?, List.foldl_append]

theorem maxNat?_range' (n : Nat) :
    maxNat? (List.range' 1 n) = if n = 0 then none else some n := by
  induction n with
  | zero => rfl
  | succ m ih =>
    rw [List.range'_1_concat 1 m, maxNat?_concat, ih]
    cases m with
    | zero => simp
    | succ k =>
      have hm : Nat.max (k + 1) (1 + (k + 1)) = 1 + (k + 1) :=
        Nat.max_eq_right (by omega)
      rw [if_neg (Nat.succ_ne_zero k), if_neg (Nat.succ_ne_zero (k + 1))]
      show some ((k + 1).max (1 + (k + 1))) = some (k + 1 + 1)
      rw [hm, Nat.add_comm 1 (k + 1)]

/-! ## Concrete stores used by witnesses and counterexamples -/

/-- A store with one course ("WD") and no certificates. -/
def dbWD : DB := ⟨[⟨1, "WD", "Web Development"⟩], []⟩

/-- The certificate row the first issuance against `dbWD` persists. -/
def certWD : Certificate :=
  ⟨0, 1, 1, "2024-WD-0001-473895", 1, "473895", 0, 2024, "active"⟩

/-- A store holding that one active certificate. -/
def dbWD1 : DB := ⟨[⟨1, "WD", "Web Development"⟩], [certWD]⟩

/-- A store whose two-character course code starts with a digit; the
`String(2)` column accepts it. -/
def db3x : DB := ⟨[⟨1, "3x", "3d Experience"⟩], []⟩

/-- A store whose (course 1, year 2024) partition has already used
sequence 9999. -/
def dbFull : DB :=
  ⟨[⟨1, "WD", "Web Development"⟩],
   [⟨1, 1, 1, "2024-WD-9999-ABCDEF", 9999, "ABCDEF", 0, 2024, "active"⟩]⟩

/-- A store holding the certificate of `dbWD1` in revoked state. -/
def dbRevoked : DB :=
  ⟨[⟨1, "WD", "Web Development"⟩],
   [⟨0, 1, 1, "2024-WD-0001-473895", 1, "473895", 0, 2024, "revoked"⟩]⟩

/-- The certificate of `dbWD1` with every stored derived field changed:
different row id, `sequential_part`, `hash_part`, `issue_date` and
`issue_year`, same serial, student, course and status. -/
def certScrambled : Certificate :=
  ⟨9, 1, 1, "2024-WD-0001-473895", 77, "FFFFFF", 5, 1999, "active"⟩

/-- A store holding `certScrambled` and no courses at all. -/
def dbScrambled : DB := ⟨[], [certScrambled]⟩

/-! ## The claims -/

/-- **C3**, counterexample.  The claim says the validator accepts exactly
the ASCII shape `YYYY-CC-NNNN-VVVVVV` of width 18 and rejects every
deviation, including non-ASCII digits and trailing characters.  In fact a
trailing newline is accepted (Python's `$`), Arabic-Indic digits are
accepted (Python's `\d`), and the accepted ASCII shape has width 19, not
18. -/
theorem claim_C3_counterexample :
    validate_serial_number "2024-WD-0001-A1B2C3\n" = true ∧
    specSerialFormat "2024-WD-0001-A1B2C3\n" = false ∧
    validate_serial_number "٢٠٢٤-WD-0001-A1B2C3" = true ∧
    specSerialFormat "٢٠٢٤-WD-0001-A1B2C3" = false ∧
    validate_serial_number "2024-WD-0001-A1B2C3" = true ∧
    "2024-WD-0001-A1B2C3".length = 19 :=
  ⟨by decide, by decide, by decide, by decide, by decide, by decide⟩

/-- **C3** (amended).  `validate_serial_number s` is true exactly when `s`
is four Unicode decimal digits, a hyphen, two uppercase Latin letters, a
hyphen, four Unicode decimal digits, a hyphen and six `[A-F0-9]`
characters — 19 characters, not 18 — optionally followed by one trailing
newline. -/
theorem claim_C3_validator_characterization (s : String) :
    validate_serial_number s = true ↔
      (pySerialShape s.data ∨ ∃ cs, s.data = cs ++ ['\n'] ∧ pySerialShape cs) := by
  unfold validate_serial_number
  rw [Bool.or_eq_true, Bool.and_eq_true, beq_iff_eq, serialCore_iff_pyShape]
  constructor
  · rintro (h | ⟨hlast, hcore⟩)
    · exact .inl h
    · refine .inr ⟨s.data.dropLast, ?_, (serialCore_iff_pyShape _).mp hcore⟩
      exact (List.dropLast_append_getLast? '\n' (Option.mem_def.mpr hlast)).symm
  · rintro (h | ⟨cs, hcs, hshape⟩)
    · exact .inl h
    · refine .inr ⟨?_, ?_⟩
      · rw [hcs, List.getLast?_concat]
      · rw [hcs, List.dropLast_concat]
        exact (serialCore_iff_pyShape _).mpr hshape

/-- **C4**, counterexample.  The claim asserts format closure including
sequences beyond 9999 and arbitrary stored course-code content.  Both
fail: sequence 10000 renders as five digits, and a course code `"3x"`
upper-cases to `"3X"`, which `[A-Z]{2}` rejects. -/
theorem claim_C4_counterexample :
    generate_serial_number dbFull 1 1 2024 =
      .ok ⟨"2024-WD-10000-0360AA", 10000, "0360AA"⟩ ∧
    validate_serial_number "2024-WD-10000-0360AA" = false ∧
    generate_serial_number db3x 1 1 2024 =
      .ok ⟨"2024-3X-0001-473895", 1, "473895"⟩ ∧
    validate_serial_number "2024-3X-0001-473895" = false :=
  ⟨by decide, by decide, by decide, by decide⟩

/-- **C4** (amended).  Format closure holds whenever the current year has
four digits, the allocated sequence does not exceed 9999, and the stored
course code upper-cases to two Latin letters: then the generated serial
satisfies the validator. -/
theorem claim_C4_format_closure (db : DB) (sid cid year : Nat) (course : Course)
    (r : GenResult)
    (hc : findCourse db cid = some course)
    (hg : generate_serial_number db sid cid year = .ok r)
    (hy1 : 1000 ≤ year) (hy2 : year ≤ 9999)
    (hq : r.sequential_part ≤ 9999)
    (hcode : isTwoUpper (strUpper course.course_code) = true) :
    validate_serial_number r.serial_number = true := by
  have h := (generated_serial_parts hc hg hy1 hy2 hq hcode).1
  simp [validate_serial_number, h]

/-- **C4**, witness at a concrete store. -/
theorem claim_C4_witness :
    validate_serial_number
      (GenResult.serial_number ⟨"2024-WD-0001-473895", 1, "473895"⟩) = true :=
  claim_C4_format_closure dbWD 1 1 2024 ⟨1, "WD", "Web Development"⟩
    ⟨"2024-WD-0001-473895", 1, "473895"⟩ (by decide) (by decide) (by decide)
    (by decide) (by decide) (by decide)

/-- **C5**.  Sequence allocation: a successful generation returns exactly
`max(sequential_part) + 1` over the matching `(course_id, issue_year)`
partition, an empty partition counting as 0; and `N` serial issuances
into an initially empty partition produce the sequences `1..N` exactly. -/
theorem claim_C5_sequence_allocation :
    (∀ db sid cid year (course : Course) r, findCourse db cid = some course →
      generate_serial_number db sid cid year = .ok r →
      r.sequential_part = (maxSequential db cid year).getD 0 + 1) ∧
    (∀ db sid cid year (course : Course) N, findCourse db cid = some course →
      partitionSeqs db cid year = [] →
      partitionSeqs (issueMany db sid cid year N) cid year = List.range' 1 N) := by
  constructor
  · intro db sid cid year course r hc hg
    exact (generate_ok_eq hc hg).1
  · intro db sid cid year course N hc hempty
    induction N with
    | zero => simpa [issueMany] using hempty
    | succ n ih =>
      have hcn : findCourse (issueMany db sid cid year n) cid = some course := by
        rw [findCourse, issueMany_courses]
        exact hc
      obtain ⟨r, hr⟩ := generate_ok_of_course sid year hcn
      have hseq := (generate_ok_eq hcn hr).1
      have hmax : maxSequential (issueMany db sid cid year n) cid year =
          maxNat? (List.range' 1 n) := by
        rw [maxSequential, ih]
      rw [issueMany, issueOne_partition hr, ih, hseq, hmax, maxNat?_range']
      cases n with
      | zero => simp [List.range']
      | succ m =>
        rw [if_neg (Nat.succ_ne_zero m), List.range'_1_concat 1 (m + 1)]
        simp [Nat.add_comm]

/-- **C5**, witness: three issuances against the empty partition of a
concrete store produce sequences `[1, 2, 3]`. -/
theorem claim_C5_witness :
    GenResult.sequential_part ⟨"2024-WD-0001-473895", 1, "473895"⟩ =
      (maxSequential dbWD 1 2024).getD 0 + 1 ∧
    partitionSeqs (issueMany dbWD 1 1 2024 3) 1 2024 = List.range' 1 3 :=
  ⟨claim_C5_sequence_allocation.1 dbWD 1 1 2024 ⟨1, "WD", "Web Development"⟩
     ⟨"2024-WD-0001-473895", 1, "473895"⟩ (by decide) (by decide),
   claim_C5_sequence_allocation.2 dbWD 1 1 2024 ⟨1, "WD", "Web Development"⟩ 3
     (by decide) rfl⟩

/-- **C6**.  Checksum definition and determinism: a successful generation
returns as checksum the first six hex characters, upper-cased, of the
SHA-256 digest of `"{student_id}-{course_id}-{year}-{padded_sequence}"`
(`course_id` the numeric id); and any two generations agreeing on
student, course, year and allocated sequence return the same checksum,
whatever their stores. -/
theorem claim_C6_checksum_definition :
    (∀ db sid cid year (course : Course) r, findCourse db cid = some course →
      generate_serial_number db sid cid year = .ok r →
      r.hash_part = first6upper (sha256hex (natStr sid ++ "-" ++ natStr cid ++ "-" ++
        natStr year ++ "-" ++ zeroPad4 r.sequential_part))) ∧
    (∀ db db2 sid cid year (course course2 : Course) r r2,
      findCourse db cid = some course →
      generate_serial_number db sid cid year = .ok r →
      findCourse db2 cid = some course2 →
      generate_serial_number db2 sid cid year = .ok r2 →
      r2.sequential_part = r.sequential_part →
      r2.hash_part = r.hash_part) := by
  refine ⟨fun db sid cid year course r hc hg => (generate_ok_eq hc hg).2.1, ?_⟩
  intro db db2 sid cid year course course2 r r2 hc hg hc2 hg2 hs
  rw [(generate_ok_eq hc2 hg2).2.1, (generate_ok_eq hc hg).2.1, hs]

/-- **C6**, witness: the checksum of the first issuance against `dbWD`
is the first six upper-cased hex characters of `sha256("1-1-2024-0001")`. -/
theorem claim_C6_witness :
    GenResult.hash_part ⟨"2024-WD-0001-473895", 1, "473895"⟩ =
      first6upper (sha256hex (natStr 1 ++ "-" ++ natStr 1 ++ "-" ++ natStr 2024 ++ "-" ++
        zeroPad4 (GenResult.sequential_part ⟨"2024-WD-0001-473895", 1, "473895"⟩))) :=
  claim_C6_checksum_definition.1 dbWD 1 1 2024 ⟨1, "WD", "Web Development"⟩
    ⟨"2024-WD-0001-473895", 1, "473895"⟩ (by decide) (by decide)

/-- **C8**.  Missing-course failure: generation fails with the
course-not-found error exactly when no course has the given id, and
succeeds whenever one does.  The generator never writes to the store, so
no sequence is allocated on the failing path. -/
theorem claim_C8_missing_course (db : DB) (sid cid year : Nat) :
    (findCourse db cid = none →
      generate_serial_number db sid cid year =
        .error ("Course with ID " ++ natStr cid ++ " not found")) ∧
    (∀ course, findCourse db cid = some course →
      ∃ r, generate_serial_number db sid cid year = .ok r) := by
  constructor
  · intro h
    simp only [generate_serial_number, h]
  · intro course h
    exact generate_ok_of_course sid year h

/-- **C8**, witness: failure on an empty store, success on `dbWD`. -/
theorem claim_C8_witness :
    generate_serial_number ⟨[], []⟩ 1 7 2024 =
      .error ("Course with ID " ++ natStr 7 ++ " not found") ∧
    ∃ r, generate_serial_number dbWD 1 1 2024 = .ok r :=
  ⟨(claim_C8_missing_course ⟨[], []⟩ 1 7 2024).1 rfl,
   (claim_C8_missing_course dbWD 1 1 2024).2 ⟨1, "WD", "Web Development"⟩ (by decide)⟩

/-! ## Unfoldings of the verifier, one per outcome of the first two checks -/

theorem data_mk (l : List Char) : (String.mk l).data = l := rfl

theorem verify_invalid {db : DB} {s : String}
    (hval : validate_serial_number s = false) :
    verify_certificate_authenticity db s =
      ⟨false, "Invalid serial number format", none⟩ := by
  unfold verify_certificate_authenticity
  rw [if_pos hval]

theorem verify_not_found {db : DB} {s : String}
    (hval : ¬ validate_serial_number s = false)
    (hfind : findCertificate db s = none) :
    verify_certificate_authenticity db s =
      ⟨false, "Certificate not found in database", none⟩ := by
  unfold verify_certificate_authenticity
  rw [if_neg hval, hfind]

theorem verify_of_found {db : DB} {s : String} {cert : Certificate}
    (hval : ¬ validate_serial_number s = false)
    (hfind : findCertificate db s = some cert) :
    verify_certificate_authenticity db s =
      if cert.status != "active" then
        ⟨false, "Certificate status is " ++ cert.status, some cert⟩
      else
        match splitDash s.data with
        | [year, _code, sequential, provided_hash] =>
          if String.mk provided_hash !=
              first6upper (sha256hex (natStr cert.student_id ++ "-" ++
                natStr cert.course_id ++ "-" ++ String.mk year ++ "-" ++
                String.mk sequential)) then
            ⟨false, "Hash verification failed - certificate may be forged",
              some cert⟩
          else
            ⟨true, "Certificate is authentic and valid", some cert⟩
        | _ => ⟨false, "Invalid serial number format", none⟩ := by
  unfold verify_certificate_authenticity
  rw [if_neg hval, hfind]

/-- **C1**, counterexample.  The claim quantifies over every store state in
which generation just succeeded and the row was inserted.  With stored
course code `"3x"` the generator succeeds and the inserted row is found by
its serial, yet verification answers `is_valid = false` ("invalid format"),
because the serial fails the lexical check. -/
theorem claim_C1_counterexample :
    generate_serial_number db3x 1 1 2024 =
      .ok ⟨"2024-3X-0001-473895", 1, "473895"⟩ ∧
    findCertificate (issueOne db3x 1 1 2024) "2024-3X-0001-473895" =
      some ⟨0, 1, 1, "2024-3X-0001-473895", 1, "473895", 0, 2024, "active"⟩ ∧
    verify_certificate_authenticity (issueOne db3x 1 1 2024) "2024-3X-0001-473895" =
      ⟨false, "Invalid serial number format", none⟩ :=
  ⟨by decide, by decide, by decide⟩

/-- **C1** (amended).  Verification symmetry holds whenever the year is
four digits, the allocated sequence is at most 9999, the stored course
code upper-cases to two Latin letters, and the lookup of the generated
serial finds the freshly inserted row (same student, same course, status
active): verification then answers `is_valid = true` with the authentic
reason and the certificate. -/
theorem claim_C1_verification_symmetry (db db2 : DB) (sid cid year : Nat)
    (course : Course) (r : GenResult) (cert : Certificate)
    (hc : findCourse db cid = some course)
    (hg : generate_serial_number db sid cid year = .ok r)
    (hy1 : 1000 ≤ year) (hy2 : year ≤ 9999)
    (hq : r.sequential_part ≤ 9999)
    (hcode : isTwoUpper (strUpper course.course_code) = true)
    (hfind : findCertificate db2 r.serial_number = some cert)
    (hsid : cert.student_id = sid) (hcid : cert.course_id = cid)
    (hst : cert.status = "active") :
    verify_certificate_authenticity db2 r.serial_number =
      ⟨true, "Certificate is authentic and valid", some cert⟩ := by
  obtain ⟨hcore, hsplit⟩ := generated_serial_parts hc hg hy1 hy2 hq hcode
  obtain ⟨hseq, hhash, hser⟩ := generate_ok_eq hc hg
  have hval : validate_serial_number r.serial_number = true := by
    simp [validate_serial_number, hcore]
  have hvnot : ¬ validate_serial_number r.serial_number = false := by
    rw [hval]; decide
  have hbne : ¬ ((cert.status != "active") = true) := by
    rw [hst]; decide
  rw [verify_of_found hvnot hfind, if_neg hbne, hsplit]
  simp only [hsid, hcid, mk_data]
  rw [hhash]
  simp

/-- **C1**, witness: the first issuance against `dbWD`, persisted as
`certWD`, verifies as authentic. -/
theorem claim_C1_witness :
    verify_certificate_authenticity dbWD1 "2024-WD-0001-473895" =
      ⟨true, "Certificate is authentic and valid", some certWD⟩ :=
  claim_C1_verification_symmetry dbWD dbWD1 1 1 2024 ⟨1, "WD", "Web Development"⟩
    ⟨"2024-WD-0001-473895", 1, "473895"⟩ certWD (by decide) (by decide) (by decide)
    (by decide) (by decide) (by decide) (by decide) rfl rfl rfl

/-- **C2**, counterexample.  The claim says a single checksum-character
change makes verification fail with the hash-failure reason.  In fact the
altered serial no longer matches any stored `serial_number`, so lookup
fails first: the reason is "not found", not "hash verification failed"
(the serial here is the valid, stored, active one of `dbWD1`, altered in
its last checksum character). -/
theorem claim_C2_counterexample :
    validate_serial_number "2024-WD-0001-473895" = true ∧
    verify_certificate_authenticity dbWD1 "2024-WD-0001-473895" =
      ⟨true, "Certificate is authentic and valid", some certWD⟩ ∧
    validate_serial_number "2024-WD-0001-473896" = true ∧
    verify_certificate_authenticity dbWD1 "2024-WD-0001-473896" =
      ⟨false, "Certificate not found in database", none⟩ :=
  ⟨by decide, by decide, by decide, by decide⟩

/-- **C2** (amended).  Changing one character inside the checksum segment
(positions 13–18) of a well-formed serial to any `[A-F0-9]` character
keeps the serial well-formed, and when no stored certificate bears the
altered serial — as the original's uniqueness guarantees for every
fresh alteration — verification answers `is_valid = false` with reason
"Certificate not found in database", not the hash-failure reason. -/
theorem claim_C2_tamper_detection (db : DB) (s : String) (i : Nat) (c : Char)
    (hcore : serialCore s.data = true)
    (hi1 : 13 ≤ i) (hi2 : i ≤ 18)
    (hhex : isHexUp c = true)
    (habsent : ∀ cert ∈ db.certificates,
      cert.serial_number ≠ String.mk (s.data.set i c)) :
    verify_certificate_authenticity db (String.mk (s.data.set i c)) =
      ⟨false, "Certificate not found in database", none⟩ := by
  obtain ⟨y0, y1, y2, y3, a0, a1, n0, n1, n2, n3, v0, v1, v2, v3, v4, v5,
    hdata, c1, c2, c3, c4, c5, c6, c7, c8, c9, c10, c11, c12, c13, c14, c15, c16⟩ :=
    serialCore_destruct hcore
  have hcore2 : serialCore (s.data.set i c) = true := by
    rw [hdata]
    interval_cases i
    · show serialCore [y0, y1, y2, y3, '-', a0, a1, '-', n0, n1, n2, n3, '-',
        c, v1, v2, v3, v4, v5] = true
      simp [serialCore, c1, c2, c3, c4, c5, c6, c7, c8, c9, c10, c12, c13,
        c14, c15, c16, hhex]
    · show serialCore [y0, y1, y2, y3, '-', a0, a1, '-', n0, n1, n2, n3, '-',
        v0, c, v2, v3, v4, v5] = true
      simp [serialCore, c1, c2, c3, c4, c5, c6, c7, c8, c9, c10, c11, c13,
        c14, c15, c16, hhex]
    · show serialCore [y0, y1, y2, y3, '-', a0, a1, '-', n0, n1, n2, n3, '-',
        v0, v1, c, v3, v4, v5] = true
      simp [serialCore, c1, c2, c3, c4, c5, c6, c7, c8, c9, c10, c11, c12,
        c14, c15, c16, hhex]
    · show serialCore [y0, y1, y2, y3, '-', a0, a1, '-', n0, n1, n2, n3, '-',
        v0, v1, v2, c, v4, v5] = true
      simp [serialCore, c1, c2, c3, c4, c5, c6, c7, c8, c9, c10, c11, c12,
        c13, c15, c16, hhex]
    · show serialCore [y0, y1, y2, y3, '-', a0, a1, '-', n0, n1, n2, n3, '-',
        v0, v1, v2, v3, c, v5] = true
      simp [serialCore, c1, c2, c3, c4, c5, c6, c7, c8, c9, c10, c11, c12,
        c13, c14, c16, hhex]
    · show serialCore [y0, y1, y2, y3, '-', a0, a1, '-', n0, n1, n2, n3, '-',
        v0, v1, v2, v3, v4, c] = true
      simp [serialCore, c1, c2, c3, c4, c5, c6, c7, c8, c9, c10, c11, c12,
        c13, c14, c15, hhex]
  have hvnot : ¬ validate_serial_number (String.mk (s.data.set i c)) = false := by
    simp [validate_serial_number, data_mk, hcore2]
  have hnone : findCertificate db (String.mk (s.data.set i c)) = none :=
    List.find?_eq_none.mpr (fun cert hmem => by simpa using habsent cert hmem)
  exact verify_not_found hvnot hnone

/-- **C2**, witness: altering the last checksum character of the stored
valid serial of `dbWD1` to `'6'` yields the not-found rejection. -/
theorem claim_C2_witness :
    verify_certificate_authenticity dbWD1
      (String.mk ("2024-WD-0001-473895".data.set 18 '6')) =
      ⟨false, "Certificate not found in database", none⟩ :=
  claim_C2_tamper_detection dbWD1 "2024-WD-0001-473895" 18 '6' (by decide)
    (by decide) (by decide) (by decide) (by decide)

/-- **C7**.  Status gating: a well-formed serial found in the store with a
status other than `active` is rejected with the reason naming that status
and with the certificate in the result; the outcome is the same whatever
the stored or recomputed checksum, since the status check short-circuits
before any hashing. -/
theorem claim_C7_status_gating (db : DB) (s : String) (cert : Certificate)
    (hval : validate_serial_number s = true)
    (hfind : findCertificate db s = some cert)
    (hst : cert.status ≠ "active") :
    verify_certificate_authenticity db s =
      ⟨false, "Certificate status is " ++ cert.status, some cert⟩ := by
  have hvnot : ¬ validate_serial_number s = false := by
    rw [hval]; decide
  rw [verify_of_found hvnot hfind, if_pos (bne_iff_ne.mpr hst)]

/-- **C7**, witness: the revoked twin of `certWD` is rejected with
"Certificate status is revoked". -/
theorem claim_C7_witness :
    verify_certificate_authenticity dbRevoked "2024-WD-0001-473895" =
      ⟨false, "Certificate status is revoked",
        some ⟨0, 1, 1, "2024-WD-0001-473895", 1, "473895", 0, 2024, "revoked"⟩⟩ :=
  claim_C7_status_gating dbRevoked "2024-WD-0001-473895"
    ⟨0, 1, 1, "2024-WD-0001-473895", 1, "473895", 0, 2024, "revoked"⟩
    (by decide) (by decide) (by decide)

/-- **C9**.  Verification totality on untrusted input: the verifier is a
total function; on any malformed string it returns the structured
invalid-format result, identically for every store (it never touches the
store); and on any validated string the serial splits into exactly four
hyphen-separated segments, so the four-way unpacking inside the verifier
cannot fail. -/
theorem claim_C9_verification_totality (db db2 : DB) (s : String) :
    (validate_serial_number s = false →
      verify_certificate_authenticity db s =
        ⟨false, "Invalid serial number format", none⟩ ∧
      verify_certificate_authenticity db s =
        verify_certificate_authenticity db2 s) ∧
    (validate_serial_number s = true →
      ∃ p0 p1 p2 p3, splitDash s.data = [p0, p1, p2, p3]) := by
  constructor
  · intro h
    rw [verify_invalid h, verify_invalid h]
    exact ⟨rfl, rfl⟩
  · intro h
    rw [validate_serial_number, Bool.or_eq_true, Bool.and_eq_true, beq_iff_eq] at h
    rcases h with h | ⟨hlast, h⟩
    · obtain ⟨y0, y1, y2, y3, a0, a1, n0, n1, n2, n3, v0, v1, v2, v3, v4, v5,
        hdata, c1, c2, c3, c4, c5, c6, c7, c8, c9, c10, c11, c12, c13, c14, c15, c16⟩ :=
        serialCore_destruct h
      refine ⟨[y0, y1, y2, y3], [a0, a1], [n0, n1, n2, n3],
        [v0, v1, v2, v3, v4, v5], ?_⟩
      rw [hdata]
      show splitDash ([y0, y1, y2, y3] ++ '-' :: ([a0, a1] ++ '-' ::
        ([n0, n1, n2, n3] ++ '-' :: [v0, v1, v2, v3, v4, v5]))) = _
      rw [splitDash_append (by
          intro x hx; simp at hx
          rcases hx with rfl | rfl | rfl | rfl
          exacts [isNdDigit_ne_dash c1, isNdDigit_ne_dash c2,
            isNdDigit_ne_dash c3, isNdDigit_ne_dash c4]),
        splitDash_append (by
          intro x hx; simp at hx
          rcases hx with rfl | rfl
          exacts [isUpperAZ_ne_dash c5, isUpperAZ_ne_dash c6]),
        splitDash_append (by
          intro x hx; simp at hx
          rcases hx with rfl | rfl | rfl | rfl
          exacts [isNdDigit_ne_dash c7, isNdDigit_ne_dash c8,
            isNdDigit_ne_dash c9, isNdDigit_ne_dash c10]),
        splitDash_no_dash (by
          intro x hx; simp at hx
          rcases hx with rfl | rfl | rfl | rfl | rfl | rfl
          exacts [isHexUp_ne_dash c11, isHexUp_ne_dash c12, isHexUp_ne_dash c13,
            isHexUp_ne_dash c14, isHexUp_ne_dash c15, isHexUp_ne_dash c16])]
    · obtain ⟨y0, y1, y2, y3, a0, a1, n0, n1, n2, n3, v0, v1, v2, v3, v4, v5,
        hdata, c1, c2, c3, c4, c5, c6, c7, c8, c9, c10, c11, c12, c13, c14, c15, c16⟩ :=
        serialCore_destruct h
      have hfull : s.data = s.data.dropLast ++ ['\n'] :=
        (List.dropLast_append_getLast? '\n' (Option.mem_def.mpr hlast)).symm
      refine ⟨[y0, y1, y2, y3], [a0, a1], [n0, n1, n2, n3],
        [v0, v1, v2, v3, v4, v5, '\n'], ?_⟩
      rw [hfull, hdata]
      show splitDash ([y0, y1, y2, y3] ++ '-' :: ([a0, a1] ++ '-' ::
        ([n0, n1, n2, n3] ++ '-' :: [v0, v1, v2, v3, v4, v5, '\n']))) = _
      rw [splitDash_append (by
          intro x hx; simp at hx
          rcases hx with rfl | rfl | rfl | rfl
          exacts [isNdDigit_ne_dash c1, isNdDigit_ne_dash c2,
            isNdDigit_ne_dash c3, isNdDigit_ne_dash c4]),
        splitDash_append (by
          intro x hx; simp at hx
          rcases hx with rfl | rfl
          exacts [isUpperAZ_ne_dash c5, isUpperAZ_ne_dash c6]),
        splitDash_append (by
          intro x hx; simp at hx
          rcases hx with rfl | rfl | rfl | rfl
          exacts [isNdDigit_ne_dash c7, isNdDigit_ne_dash c8,
            isNdDigit_ne_dash c9, isNdDigit_ne_dash c10]),
        splitDash_no_dash (by
          intro x hx; simp at hx
          rcases hx with rfl | rfl | rfl | rfl | rfl | rfl | rfl
          exacts [isHexUp_ne_dash c11, isHexUp_ne_dash c12, isHexUp_ne_dash c13,
            isHexUp_ne_dash c14, isHexUp_ne_dash c15, isHexUp_ne_dash c16,
            by decide])]

/-- **C9**, witness: a malformed string is rejected with the structured
invalid-format result, identically across two different stores, and a
validated serial splits into four segments. -/
theorem claim_C9_witness :
    verify_certificate_authenticity dbWD1 "not-a-serial" =
      ⟨false, "Invalid serial number format", none⟩ ∧
    verify_certificate_authenticity dbWD1 "not-a-serial" =
      verify_certificate_authenticity dbScrambled "not-a-serial" ∧
    ∃ p0 p1 p2 p3, splitDash "2024-WD-0001-A1B2C3".data = [p0, p1, p2, p3] :=
  ⟨((claim_C9_verification_totality dbWD1 dbScrambled "not-a-serial").1
      (by decide)).1,
   ((claim_C9_verification_totality dbWD1 dbScrambled "not-a-serial").1
      (by decide)).2,
   (claim_C9_verification_totality dbWD1 dbScrambled "2024-WD-0001-A1B2C3").2
      (by decide)⟩

/-- **C10**.  Verification ignores stored derived fields: two stores whose
certificates found under the same serial agree on `serial_number`,
`status`, `student_id` and `course_id` — whatever their
`sequential_part`, `hash_part`, `issue_year`, `issue_date` or course
tables — receive the same `is_valid` and the same `reason`; the year and
sequence entering the checksum recomputation come from the serial string
alone. -/
theorem claim_C10_stored_field_independence (db1 db2 : DB) (s : String)
    (cert1 cert2 : Certificate)
    (h1 : findCertificate db1 s = some cert1)
    (h2 : findCertificate db2 s = some cert2)
    (_hser : cert1.serial_number = cert2.serial_number)
    (hst : cert1.status = cert2.status)
    (hsid : cert1.student_id = cert2.student_id)
    (hcid : cert1.course_id = cert2.course_id) :
    (verify_certificate_authenticity db1 s).is_valid =
      (verify_certificate_authenticity db2 s).is_valid ∧
    (verify_certificate_authenticity db1 s).reason =
      (verify_certificate_authenticity db2 s).reason := by
  by_cases hval : validate_serial_number s = false
  · rw [verify_invalid hval, verify_invalid hval]
    exact ⟨rfl, rfl⟩
  · rw [verify_of_found hval h1, verify_of_found hval h2, hst, hsid, hcid]
    by_cases hb : (cert2.status != "active") = true
    · rw [if_pos hb, if_pos hb]
      exact ⟨rfl, rfl⟩
    · rw [if_neg hb, if_neg hb]
      generalize splitDash s.data = parts
      rcases parts with _ | ⟨p0, _ | ⟨p1, _ | ⟨p2, _ | ⟨p3, _ | ⟨p4, rest⟩⟩⟩⟩⟩
      · exact ⟨rfl, rfl⟩
      · exact ⟨rfl, rfl⟩
      · exact ⟨rfl, rfl⟩
      · exact ⟨rfl, rfl⟩
      · by_cases hcond : (String.mk p3 !=
            first6upper (sha256hex (natStr cert2.student_id ++ "-" ++
              natStr cert2.course_id ++ "-" ++ String.mk p0 ++ "-" ++
              String.mk p2))) = true
        · simp [hcond]
        · simp [hcond]
      · exact ⟨rfl, rfl⟩

/-- **C10**, witness: the store of `certWD` and a store with no course
table whose certificate row scrambles every derived field agree on the
verification verdict and reason. -/
theorem claim_C10_witness :
    (verify_certificate_authenticity dbWD1 "2024-WD-0001-473895").is_valid =
      (verify_certificate_authenticity dbScrambled "2024-WD-0001-473895").is_valid ∧
    (verify_certificate_authenticity dbWD1 "2024-WD-0001-473895").reason =
      (verify_certificate_authenticity dbScrambled "2024-WD-0001-473895").reason :=
  claim_C10_stored_field_independence dbWD1 dbScrambled "2024-WD-0001-473895"
    certWD certScrambled (by decide) (by decide) rfl rfl rfl rfl

end CSL

